import Mathlib

/-!
Shallow embedding of the Azure Container Apps review-apps action
(src/main.ts): the traffic reconciler, the desired-state envelope builder,
the revision-name length check, and the deactivation validator.

TypeScript optional fields are modelled as Option; a thrown runtime
TypeError from accessing a member of undefined is modelled as an error
result. Control-plane calls are recorded as an explicit call list so that
claims about which calls are issued can be stated.
-/

set_option autoImplicit false

namespace Aca

/-- A traffic split entry of the live resource.  In the SDK type the
fields revisionName, latestRevision and weight are all optional; the code
only ever tests latestRevision for truthiness, so it is modelled as Bool
(undefined collapses with false). -/
structure TrafficWeight where
  revisionName : Option String
  latestRevision : Bool
  weight : Option Int
deriving Repr, DecidableEq

/-- The weight test of the filter callback at main.ts line 47:
an entry is dropped when its weight is falsy (undefined or 0). -/
def weightNonzero : Option Int → Bool
  | none => false
  | some n => n != 0

/-- The in-place rewrite that the filter callback at main.ts lines 48-51
performs on an entry: a kept (nonzero-weight) entry flagged latestRevision
has the flag cleared and its revisionName set to the current
latestRevisionName of the resource.  Dropped entries are returned before
the rewrite, so they are unchanged. -/
def reconcileEntry (latest : Option String) (t : TrafficWeight) : TrafficWeight :=
  if weightNonzero t.weight && t.latestRevision then
    { t with latestRevision := false, revisionName := latest }
  else t

/-- The state of the snapshot traffic array after the filter callback has
run over every element: the callback mutates kept aliased entries in
place, so the array read back from the snapshot is the element-wise
rewrite of the original. -/
def trafficAfterReconcile (latest : Option String) (l : List TrafficWeight) :
    List TrafficWeight :=
  l.map (reconcileEntry latest)

/-- The entry pushed for the new revision at main.ts lines 54-58. -/
def newTrafficEntry (newName : String) : TrafficWeight :=
  { revisionName := some newName, latestRevision := false, weight := some 0 }

/-- The traffic reconciler, main.ts lines 46-58: filter the live list
keeping the nonzero-weight entries (rewriting aliased ones in passing),
then push the new revision at weight 0.  The filter result is a fresh
array, so the push does not touch the snapshot. -/
def reconcile (latest : Option String) (newName : String) (l : List TrafficWeight) :
    List TrafficWeight :=
  (trafficAfterReconcile latest l).filter (fun t => weightNonzero t.weight)
    ++ [newTrafficEntry newName]

/-- Main.ts line 46 as written: the expression traffic!.filter(...) calls
filter on the raw traffic field, so when the field is absent the code
throws a TypeError (modelled as none); the trailing fallback of an empty
array is unreachable because filter always returns an array. -/
def reconcileLive (latest : Option String) (newName : String) :
    Option (List TrafficWeight) → Option (List TrafficWeight)
  | none => none
  | some l => some (reconcile latest newName l)

/-- Modelled from the spec: section 4.2 edge case, an absent live traffic
list is treated as empty, producing the single-entry list with only the
new zero-weight revision.  Kept beside reconcileLive to compare the
stated behaviour with the source behaviour. -/
def reconcileLiveSpec (latest : Option String) (newName : String)
    (traffic : Option (List TrafficWeight)) : Option (List TrafficWeight) :=
  some (reconcile latest newName (traffic.getD []))

/-- Total weight of a traffic list, an absent weight counting 0. -/
def totalWeight (l : List TrafficWeight) : Int :=
  (l.map (fun t => t.weight.getD 0)).sum

/-- The name an entry that survives the filter ends up carrying: its own
name, or the resolved latest name when it was flagged as the floating
latest alias. -/
def resolvedName (latest : Option String) (t : TrafficWeight) : Option String :=
  if t.latestRevision then latest else t.revisionName

/-- JavaScript addition where one operand may be undefined: adding
undefined to a number gives NaN, and NaN absorbs.  none stands for NaN or
undefined. -/
def jsAdd : Option Int → Option Int → Option Int
  | some a, some b => some (a + b)
  | _, _ => none

/-- The reduce at main.ts line 160: sum of the weights starting from 0,
with the NaN-absorbing semantics of jsAdd. -/
def jsSum (l : List (Option Int)) : Option Int :=
  l.foldl jsAdd (some 0)

/-- The error taxonomy of the run (spec section 7); each error in the
source is a thrown Error with a message built from the offending name. -/
inductive AppError
  | invalidConfiguration (name : String)
  | runtimeTypeError
  | deploymentFailed (name : String)
  | unsafeDeactivation (name : String)
  | deactivationNotConfirmed (name : String)
deriving Repr, DecidableEq

/-- The observed part of a revision read back from the control plane. -/
structure Revision where
  active : Bool
  fqdn : Option String
deriving Repr, DecidableEq

/-- Snapshot of the ingress block of the live resource. -/
structure IngressSnapshot where
  external : Option Bool
  targetPort : Option Int
  traffic : Option (List TrafficWeight)
  customDomains : Option (List String)
deriving Repr, DecidableEq

/-- Snapshot of the scale block of the live resource template. -/
structure ScaleSnapshot where
  maxReplicas : Option Int
  minReplicas : Option Int
deriving Repr, DecidableEq

/-- Snapshot of the template of the live resource. -/
structure TemplateSnapshot where
  scale : Option ScaleSnapshot
deriving Repr, DecidableEq

/-- Snapshot of the configuration of the live resource; dapr is an opaque
object copied verbatim, modelled by an optional stand-in value. -/
structure ConfigurationSnapshot where
  ingress : Option IngressSnapshot
  dapr : Option String
deriving Repr, DecidableEq

/-- The live ContainerApp resource as read by containerApps.get. -/
structure ContainerApp where
  configuration : Option ConfigurationSnapshot
  latestRevisionName : Option String
  location : Option String
  managedEnvironmentId : Option String
  template : Option TemplateSnapshot
deriving Repr, DecidableEq

/-- The ingress block assembled at main.ts lines 60-70. -/
structure IngressConfig where
  external : Option Bool
  targetPort : Option Int
  traffic : List TrafficWeight
  customDomains : List String
deriving Repr, DecidableEq

/-- The fixed http scaling rule of main.ts lines 79-87. -/
structure ScaleRule where
  name : String
  customType : String
  concurrentRequests : String
deriving Repr, DecidableEq

def httpScalingRule : ScaleRule :=
  { name := "httpscalingrule", customType := "http", concurrentRequests := "50" }

/-- The scale block assembled at main.ts lines 72-88. -/
structure ScaleConfig where
  maxReplicas : Option Int
  minReplicas : Option Int
  rules : List ScaleRule
deriving Repr, DecidableEq

/-- The configuration block of the envelope, main.ts lines 90-101; the
ingress field is deleted when external is false or undefined, so it is an
Option whose none is the absent field. -/
structure NetworkConfig where
  dapr : Option String
  ingress : Option IngressConfig
  activeRevisionsMode : Option String
deriving Repr, DecidableEq

/-- One container of the envelope template, main.ts lines 103-108. -/
structure ContainerConfig where
  name : String
  image : String
deriving Repr, DecidableEq

/-- The template of the envelope, main.ts lines 114-118. -/
structure TemplateConfig where
  containers : List ContainerConfig
  scale : ScaleConfig
  revisionSuffix : String
deriving Repr, DecidableEq

/-- The desired-state envelope submitted to beginUpdateAndWait,
main.ts lines 110-119. -/
structure ContainerAppEnvelope where
  configuration : NetworkConfig
  location : Option String
  managedEnvironmentId : Option String
  template : TemplateConfig
deriving Repr, DecidableEq

/-- Main.ts lines 60-70: the ingress block built from the snapshot, with
the reconciled traffic and an empty-list fallback for customDomains. -/
def buildIngressConfig (ing : IngressSnapshot) (traffics : List TrafficWeight) :
    IngressConfig :=
  { external := ing.external, targetPort := ing.targetPort,
    traffic := traffics, customDomains := ing.customDomains.getD [] }

/-- Main.ts lines 72-88: the scale block with the fixed http rule. -/
def buildScaleConfig (s : ScaleSnapshot) : ScaleConfig :=
  { maxReplicas := s.maxReplicas, minReplicas := s.minReplicas,
    rules := [httpScalingRule] }

/-- Main.ts lines 90-101: the network configuration starts with the
ingress block set, and the block is deleted again when external is false
or undefined (the loose double-equals comparisons of line 99). -/
def buildNetworkConfig (dapr : Option String) (ic : IngressConfig) : NetworkConfig :=
  let nc : NetworkConfig :=
    { dapr := dapr, ingress := some ic, activeRevisionsMode := some "Multiple" }
  if ic.external = some false ∨ ic.external = none then
    { nc with ingress := none }
  else nc

/-- Main.ts lines 60-119: the whole envelope from the snapshot pieces,
the reconciled traffic list and the task parameters. -/
def buildEnvelope (app : ContainerApp) (ing : IngressSnapshot) (scale : ScaleSnapshot)
    (dapr : Option String) (traffics : List TrafficWeight)
    (containerAppName imageName revisionNameSuffix : String) : ContainerAppEnvelope :=
  { configuration := buildNetworkConfig dapr (buildIngressConfig ing traffics),
    location := app.location,
    managedEnvironmentId := app.managedEnvironmentId,
    template :=
      { containers := [{ name := containerAppName, image := imageName }],
        scale := buildScaleConfig scale,
        revisionSuffix := revisionNameSuffix } }

/-- One control-plane call, named after the SDK client method. -/
inductive CpCall
  | get
  | beginUpdateAndWait (envelope : ContainerAppEnvelope)
  | getRevision (revisionName : String)
  | deactivateRevision (revisionName : String)
deriving Repr, DecidableEq

/-- The deactivation validator, main.ts lines 155-177: filter the traffic
entries matching the target name; when there is at least one and their
reduced weight sum differs from 0 (an undefined weight makes the sum NaN,
which also differs from 0), throw before any call; otherwise request the
deactivation and re-read the revision, failing when it is still active.
postActive is the active flag returned by the re-read. -/
def deactivateRevision (traffic : List TrafficWeight) (revisionName : String)
    (postActive : Bool) : List CpCall × Except AppError Unit :=
  let targetRevisions := traffic.filter (fun r => r.revisionName == some revisionName)
  if 0 < targetRevisions.length ∧
      jsSum (targetRevisions.map (fun r => r.weight)) ≠ some 0 then
    ([], .error (.unsafeDeactivation revisionName))
  else if postActive then
    ([CpCall.deactivateRevision revisionName, CpCall.getRevision revisionName],
      .error (.deactivationNotConfirmed revisionName))
  else
    ([CpCall.deactivateRevision revisionName, CpCall.getRevision revisionName],
      .ok ())

/-- The task parameters handed over by the parameter loader. -/
structure TaskParams where
  subscriptionId : String
  resourceGroup : String
  containerAppName : String
  imageName : String
  revisionNameSuffix : String
  deactivateRevisionMode : Bool
deriving Repr, DecidableEq

/-- The maximum revision name length, main.ts line 11. -/
def MAX_REVISION_NAME_LENGTH : Nat := 63

/-- The responses of the control plane for one run: the snapshot returned
by get, the revision (or none) returned by getRevision after the update,
and the active flag of the re-read in deactivation mode. -/
structure ControlPlane where
  app : ContainerApp
  addedRevision : Option Revision
  postActive : Bool
deriving Repr, DecidableEq

/-- The run, main.ts lines 13-153, as the list of control-plane calls it
issues and its outcome (the optional app-url output on success).  The
revision-name length check of line 28 throws before the client is even
constructed; member access on an absent snapshot field that would throw a
TypeError at lines 46 or 77 ends the run with runtimeTypeError. -/
def main (p : TaskParams) (cp : ControlPlane) :
    List CpCall × Except AppError (Option String) :=
  let revisionName := p.containerAppName ++ "--" ++ p.revisionNameSuffix
  if MAX_REVISION_NAME_LENGTH < revisionName.length then
    ([], .error (.invalidConfiguration revisionName))
  else
    let app := cp.app
    if p.deactivateRevisionMode then
      let traffic :=
        ((app.configuration.bind (fun c => c.ingress)).bind (fun i => i.traffic)).getD []
      let r := deactivateRevision traffic revisionName cp.postActive
      (CpCall.get :: r.1, r.2.map (fun _ => none))
    else
      match app.configuration with
      | none => ([CpCall.get], .error .runtimeTypeError)
      | some config =>
        match config.ingress with
        | none => ([CpCall.get], .error .runtimeTypeError)
        | some ing =>
          match reconcileLive app.latestRevisionName revisionName ing.traffic with
          | none => ([CpCall.get], .error .runtimeTypeError)
          | some traffics =>
            match app.template.bind (fun t => t.scale) with
            | none => ([CpCall.get], .error .runtimeTypeError)
            | some scale =>
              let envelope := buildEnvelope app ing scale config.dapr traffics
                p.containerAppName p.imageName p.revisionNameSuffix
              match cp.addedRevision with
              | none =>
                ([CpCall.get, CpCall.beginUpdateAndWait envelope,
                    CpCall.getRevision revisionName],
                  .error (.deploymentFailed revisionName))
              | some added =>
                let out : Option String :=
                  if ing.external = some true then
                    match added.fqdn with
                    | some f => some ("https://" ++ f ++ "/")
                    | none => none
                  else none
                ([CpCall.get, CpCall.beginUpdateAndWait envelope,
                    CpCall.getRevision revisionName],
                  .ok out)

example :
    reconcile (some "app--old1") "app--abc1234"
      [{ revisionName := none, latestRevision := true, weight := some 100 }]
      = [{ revisionName := some "app--old1", latestRevision := false, weight := some 100 },
         { revisionName := some "app--abc1234", latestRevision := false, weight := some 0 }] := by
  decide

/-- The rewrite of a kept entry never changes its weight. -/
theorem reconcileEntry_weight (latest : Option String) (t : TrafficWeight) :
    (reconcileEntry latest t).weight = t.weight := by
  unfold reconcileEntry
  split <;> rfl

/-- The reconciled list is the in-order rewrite of the carried-over
(nonzero-weight) input entries with the new entry appended last. -/
theorem reconcile_eq (latest : Option String) (newName : String) (l : List TrafficWeight) :
    reconcile latest newName l
      = (l.filter (fun t => weightNonzero t.weight)).map (reconcileEntry latest)
        ++ [newTrafficEntry newName] := by
  unfold reconcile trafficAfterReconcile
  rw [List.filter_map]
  congr 2
  apply List.filter_congr
  intro t _
  simp only [Function.comp_apply, reconcileEntry_weight]

/-- Claim C1: for every live traffic-split list, the reconciled output is
the carried-over nonzero-weight entries in their input order followed by
exactly one appended entry for the new revision at weight 0 with the
alias flag false, and the total weight of the output equals the total
weight of the carried-over entries of the input. -/
theorem reconcile_preserves_weight_appends_new (latest : Option String) (newName : String)
    (l : List TrafficWeight) :
    reconcile latest newName l
      = (l.filter (fun t => weightNonzero t.weight)).map (reconcileEntry latest)
        ++ [newTrafficEntry newName] ∧
    totalWeight (reconcile latest newName l)
      = totalWeight (l.filter (fun t => weightNonzero t.weight)) := by
  refine ⟨reconcile_eq latest newName l, ?_⟩
  rw [reconcile_eq latest newName l]
  unfold totalWeight
  rw [List.map_append, List.sum_append, List.map_map]
  have hmap : ((fun t => t.weight.getD 0) ∘ reconcileEntry latest)
      = fun t : TrafficWeight => t.weight.getD 0 := by
    funext t
    simp only [Function.comp_apply, reconcileEntry_weight]
  rw [hmap]
  simp [newTrafficEntry]

/-- Claim C4: empty live traffic lists work and produce the single-entry
result, but an absent live traffic list makes main.ts line 46 call filter
on undefined, which throws a TypeError (result none), while the spec
requires absence to be treated like the empty list; reconcileLiveSpec,
modelled from the spec, shows the stated single-entry result. -/
theorem reconcile_absent_traffic_bug :
    reconcileLive (some "app--r1") "app--new" (some []) = some [newTrafficEntry "app--new"] ∧
    reconcileLive (some "app--r1") "app--new" none = none ∧
    reconcileLiveSpec (some "app--r1") "app--new" none = some [newTrafficEntry "app--new"] :=
  ⟨rfl, rfl, rfl⟩

/-- A carried-over (nonzero-weight) entry comes out of the rewrite with
the alias flag clear, whether it was aliased or not. -/
theorem reconcileEntry_latestRevision (latest : Option String) (t : TrafficWeight)
    (hw : weightNonzero t.weight = true) :
    (reconcileEntry latest t).latestRevision = false := by
  unfold reconcileEntry
  cases hb : t.latestRevision
  · simp [hb]
  · simp [hw]

/-- Claim C2: for a live list containing an aliased entry, no entry of the
reconciled output carries the alias flag, and every aliased carried-over
entry is rewritten into the output with its revisionName set to the
current latestRevisionName of the resource. -/
theorem reconcile_clears_alias (latest : Option String) (newName : String)
    (l : List TrafficWeight) (_hx : ∃ t ∈ l, t.latestRevision = true) :
    (∀ u ∈ reconcile latest newName l, u.latestRevision = false) ∧
    (∀ t ∈ l, weightNonzero t.weight = true → t.latestRevision = true →
      reconcileEntry latest t ∈ reconcile latest newName l ∧
      (reconcileEntry latest t).revisionName = latest) := by
  constructor
  · intro u hu
    rw [reconcile_eq] at hu
    rcases List.mem_append.mp hu with hu | hu
    · obtain ⟨t, ht, rfl⟩ := List.mem_map.mp hu
      exact reconcileEntry_latestRevision latest t (List.mem_filter.mp ht).2
    · rw [List.mem_singleton.mp hu]
      rfl
  · intro t ht hw hb
    constructor
    · rw [reconcile_eq]
      exact List.mem_append_left _
        (List.mem_map_of_mem _ (List.mem_filter.mpr ⟨ht, hw⟩))
    · unfold reconcileEntry
      rw [hw, hb]
      simp

/-- Claim C3 counterexample: a live list holding a fixed entry named like
the current latest revision next to a floating alias entry, both with
nonzero weight, reconciles to a list in which that name appears twice. -/
theorem reconcile_duplicate_names_cex :
    ¬ ((reconcile (some "app--r1") "app--new"
        [{ revisionName := some "app--r1", latestRevision := false, weight := some 50 },
         { revisionName := none, latestRevision := true, weight := some 50 }]).map
        (fun t => t.revisionName)).Nodup := by
  decide

/-- Claim C3 amended: the reconciled list has pairwise distinct names
provided the resolved names of the carried-over input entries are
pairwise distinct and none of them equals the new revision name. -/
theorem reconcile_nodup_of_distinct (latest : Option String) (newName : String)
    (l : List TrafficWeight)
    (h1 : ((l.filter (fun t => weightNonzero t.weight)).map (resolvedName latest)).Nodup)
    (h2 : some newName ∉ (l.filter (fun t => weightNonzero t.weight)).map (resolvedName latest)) :
    ((reconcile latest newName l).map (fun t => t.revisionName)).Nodup := by
  rw [reconcile_eq, List.map_append, List.map_map]
  have hmap : (l.filter (fun t => weightNonzero t.weight)).map
        ((fun t => t.revisionName) ∘ reconcileEntry latest)
      = (l.filter (fun t => weightNonzero t.weight)).map (resolvedName latest) := by
    apply List.map_congr_left
    intro t ht
    have hw : weightNonzero t.weight = true := (List.mem_filter.mp ht).2
    simp only [Function.comp_apply]
    unfold reconcileEntry resolvedName
    rw [hw]
    cases t.latestRevision <;> simp
  rw [hmap]
  rw [List.nodup_append]
  refine ⟨h1, by simp, ?_⟩
  intro a ha hb
  simp only [newTrafficEntry, List.map_cons, List.map_nil, List.mem_singleton] at hb
  rw [hb] at ha
  exact h2 ha

/-- Folding jsAdd from NaN stays NaN. -/
theorem foldl_jsAdd_acc_none (l : List (Option Int)) : l.foldl jsAdd none = none := by
  induction l with
  | nil => rfl
  | cons a l ih =>
    rw [List.foldl_cons]
    cases a <;> exact ih

/-- A single undefined operand turns the whole reduce into NaN. -/
theorem foldl_jsAdd_none_mem (l : List (Option Int)) (acc : Option Int)
    (h : none ∈ l) : l.foldl jsAdd acc = none := by
  induction l generalizing acc with
  | nil => cases h
  | cons a l ih =>
    rw [List.foldl_cons]
    rcases List.mem_cons.mp h with h1 | h1
    · rw [← h1]
      have hacc : jsAdd acc none = none := by cases acc <;> rfl
      rw [hacc]
      exact foldl_jsAdd_acc_none l
    · exact ih _ h1

/-- jsSum of a list containing an undefined weight is NaN. -/
theorem jsSum_none_mem (l : List (Option Int)) (h : none ∈ l) : jsSum l = none :=
  foldl_jsAdd_none_mem l (some 0) h

/-- Claim C6: in deactivation mode, a target whose matching traffic
entries have a well-defined weight sum different from 0 is refused with
the UnsafeDeactivation error, and no control-plane call is issued. -/
theorem deactivate_nonzero_traffic_refused (traffic : List TrafficWeight)
    (revisionName : String) (postActive : Bool) (s : Int)
    (hs : jsSum ((traffic.filter (fun r => r.revisionName == some revisionName)).map
        (fun r => r.weight)) = some s)
    (hnz : s ≠ 0) :
    deactivateRevision traffic revisionName postActive
      = ([], .error (.unsafeDeactivation revisionName)) := by
  have hne : traffic.filter (fun r => r.revisionName == some revisionName) ≠ [] := by
    intro h0
    rw [h0] at hs
    exact hnz (Option.some_injective Int hs.symm)
  have hpos : 0 < (traffic.filter (fun r => r.revisionName == some revisionName)).length :=
    List.length_pos.mpr hne
  have hneq : jsSum ((traffic.filter (fun r => r.revisionName == some revisionName)).map
      (fun r => r.weight)) ≠ some 0 := by
    rw [hs]
    intro hc
    exact hnz (Option.some_injective Int hc)
  unfold deactivateRevision
  rw [if_pos ⟨hpos, hneq⟩]

/-- Claim C7: in deactivation mode, a target whose matching traffic
entries sum to weight 0 (in particular when nothing matches) gets the
deactivate request issued followed by the confirmation re-read, and the
run fails with DeactivationNotConfirmed exactly when the re-read still
reports the revision active; otherwise it succeeds. -/
theorem deactivate_zero_traffic_proceeds (traffic : List TrafficWeight)
    (revisionName : String) (postActive : Bool)
    (hs : jsSum ((traffic.filter (fun r => r.revisionName == some revisionName)).map
        (fun r => r.weight)) = some 0) :
    (deactivateRevision traffic revisionName postActive).1
      = [CpCall.deactivateRevision revisionName, CpCall.getRevision revisionName] ∧
    ((deactivateRevision traffic revisionName postActive).2
      = .error (.deactivationNotConfirmed revisionName) ↔ postActive = true) ∧
    (postActive = false →
      (deactivateRevision traffic revisionName postActive).2 = .ok ()) := by
  have hcond : ¬ (0 < (traffic.filter (fun r => r.revisionName == some revisionName)).length ∧
      jsSum ((traffic.filter (fun r => r.revisionName == some revisionName)).map
        (fun r => r.weight)) ≠ some 0) := by
    intro hc
    exact hc.2 hs
  unfold deactivateRevision
  rw [if_neg hcond]
  cases postActive <;> simp

/-- Claim C10: in deactivation mode, a matching traffic entry with an
absent weight makes the reduce sum NaN, which the check treats as live
traffic: the run is refused with UnsafeDeactivation and no deactivate
call is issued. -/
theorem deactivate_undefined_weight_refused (traffic : List TrafficWeight)
    (revisionName : String) (postActive : Bool)
    (hnone : ∃ t ∈ traffic.filter (fun r => r.revisionName == some revisionName),
        t.weight = none)
    (_hnopos : ∀ t ∈ traffic.filter (fun r => r.revisionName == some revisionName),
        ∀ w : Int, t.weight = some w → w ≤ 0) :
    deactivateRevision traffic revisionName postActive
      = ([], .error (.unsafeDeactivation revisionName)) := by
  obtain ⟨t, ht, hw⟩ := hnone
  have hpos : 0 < (traffic.filter (fun r => r.revisionName == some revisionName)).length :=
    List.length_pos.mpr (List.ne_nil_of_mem ht)
  have hmem : (none : Option Int) ∈
      (traffic.filter (fun r => r.revisionName == some revisionName)).map
        (fun r => r.weight) := by
    rw [← hw]
    exact List.mem_map_of_mem _ ht
  have hneq : jsSum ((traffic.filter (fun r => r.revisionName == some revisionName)).map
      (fun r => r.weight)) ≠ some 0 := by
    rw [jsSum_none_mem _ hmem]
    intro hc
    cases hc
  unfold deactivateRevision
  rw [if_pos ⟨hpos, hneq⟩]

/-- Claim C5: when the composed revision name is longer than 63
characters, the run ends with the InvalidConfiguration error and the call
list is empty: no control-plane call of any kind was issued. -/
theorem name_length_checked_first (p : TaskParams) (cp : ControlPlane)
    (h : MAX_REVISION_NAME_LENGTH < (p.containerAppName ++ "--" ++ p.revisionNameSuffix).length) :
    main p cp = ([], .error (.invalidConfiguration
        (p.containerAppName ++ "--" ++ p.revisionNameSuffix))) := by
  simp only [main]
  rw [if_pos h]

/-- Claim C8: the configuration of the built envelope carries the ingress
block exactly when the snapshot ingress is externally exposed; for a
false or absent external flag the field is none, the absent field. -/
theorem envelope_ingress_iff_external (app : ContainerApp) (ing : IngressSnapshot)
    (scale : ScaleSnapshot) (dapr : Option String) (traffics : List TrafficWeight)
    (containerAppName imageName revisionNameSuffix : String) :
    (buildEnvelope app ing scale dapr traffics containerAppName imageName
        revisionNameSuffix).configuration.ingress
      = if ing.external = some true then some (buildIngressConfig ing traffics)
        else none := by
  unfold buildEnvelope buildNetworkConfig
  rcases hext : ing.external with _ | b
  · simp [buildIngressConfig, hext]
  · cases b <;> simp [buildIngressConfig, hext]

/-- A list is fixed by a map exactly when the function fixes each
element. -/
theorem list_map_eq_self_iff {α : Type} (f : α → α) (l : List α) :
    l.map f = l ↔ ∀ t ∈ l, f t = t := by
  induction l with
  | nil => simp
  | cons a l ih =>
    simp only [List.map_cons, List.cons.injEq, List.mem_cons]
    constructor
    · rintro ⟨h1, h2⟩ t ht
      rcases ht with rfl | ht
      · exact h1
      · exact (ih.mp h2) t ht
    · intro h
      exact ⟨h a (Or.inl rfl), ih.mpr (fun t ht => h t (Or.inr ht))⟩

/-- The filter callback rewrite fixes an entry exactly when the entry is
not a nonzero-weight aliased one. -/
theorem reconcileEntry_eq_self_iff (latest : Option String) (t : TrafficWeight) :
    reconcileEntry latest t = t ↔
      (weightNonzero t.weight = true → t.latestRevision = false) := by
  obtain ⟨rn, lr, w⟩ := t
  simp only [reconcileEntry]
  cases hw : weightNonzero w
  · simp
  · cases lr
    · simp
    · simp

/-- Claim C9 counterexample: reconciling a snapshot holding one aliased
entry at weight 100 rewrites that entry inside the snapshot array, so the
snapshot traffic read back afterwards differs from the original. -/
theorem snapshot_mutation_cex :
    trafficAfterReconcile (some "app--r1")
        [{ revisionName := none, latestRevision := true, weight := some 100 }]
      ≠ [{ revisionName := none, latestRevision := true, weight := some 100 }] := by
  decide

/-- Claim C9 amended: the filter callback mutates the snapshot traffic
entries in place, so the snapshot traffic is unchanged by reconciliation
exactly when no nonzero-weight entry carries the alias flag; an aliased
nonzero-weight entry is rewritten inside the snapshot array. -/
theorem snapshot_traffic_unchanged_iff (latest : Option String) (l : List TrafficWeight) :
    trafficAfterReconcile latest l = l ↔
      ∀ t ∈ l, weightNonzero t.weight = true → t.latestRevision = false := by
  unfold trafficAfterReconcile
  rw [list_map_eq_self_iff]
  constructor
  · intro h t ht
    exact (reconcileEntry_eq_self_iff latest t).mp (h t ht)
  · intro h t ht
    exact (reconcileEntry_eq_self_iff latest t).mpr (h t ht)

/-- Concrete parameters whose composed revision name has 68 characters. -/
def sampleLongParams : TaskParams :=
  { subscriptionId := "sub", resourceGroup := "rg",
    containerAppName := "aaaaaaaaaaaaaaaaaaaaaaaaaaaaaaaaaaaaaaaaaaaaaaaaaaaaaaaaaaaa",
    imageName := "image", revisionNameSuffix := "suffix",
    deactivateRevisionMode := false }

/-- A snapshot with every optional field absent. -/
def emptyApp : ContainerApp :=
  { configuration := none, latestRevisionName := none, location := none,
    managedEnvironmentId := none, template := none }

/-- A control plane returning the empty snapshot and no added revision. -/
def sampleControlPlane : ControlPlane :=
  { app := emptyApp, addedRevision := none, postActive := false }

/-- Witness for claim C2 at a one-entry aliased list. -/
theorem reconcile_clears_alias_witness :
    (∀ u ∈ reconcile (some "app--r1") "app--new"
        [{ revisionName := none, latestRevision := true, weight := some 100 }],
      u.latestRevision = false) ∧
    (∀ t ∈ [({ revisionName := none, latestRevision := true, weight := some 100 } : TrafficWeight)],
      weightNonzero t.weight = true → t.latestRevision = true →
        reconcileEntry (some "app--r1") t ∈ reconcile (some "app--r1") "app--new"
          [{ revisionName := none, latestRevision := true, weight := some 100 }] ∧
        (reconcileEntry (some "app--r1") t).revisionName = some "app--r1") :=
  reconcile_clears_alias (some "app--r1") "app--new"
    [{ revisionName := none, latestRevision := true, weight := some 100 }]
    ⟨{ revisionName := none, latestRevision := true, weight := some 100 }, by decide, rfl⟩

/-- Witness for the amended claim C3 at a one-entry fixed-name list. -/
theorem reconcile_nodup_witness :
    ((reconcile (some "app--r1") "app--new"
        [{ revisionName := some "app--r1", latestRevision := false, weight := some 100 }]).map
      (fun t => t.revisionName)).Nodup :=
  reconcile_nodup_of_distinct (some "app--r1") "app--new"
    [{ revisionName := some "app--r1", latestRevision := false, weight := some 100 }]
    (by decide) (by decide)

/-- Witness for claim C5 at the 68-character sample name. -/
theorem name_length_checked_first_witness :
    main sampleLongParams sampleControlPlane
      = ([], .error (.invalidConfiguration
          (sampleLongParams.containerAppName ++ "--" ++ sampleLongParams.revisionNameSuffix))) :=
  name_length_checked_first sampleLongParams sampleControlPlane (by decide)

/-- Witness for claim C6 at one matching entry of weight 30. -/
theorem deactivate_nonzero_traffic_refused_witness :
    deactivateRevision
        [{ revisionName := some "app--abc123", latestRevision := false, weight := some 30 }]
        "app--abc123" false
      = ([], .error (.unsafeDeactivation "app--abc123")) :=
  deactivate_nonzero_traffic_refused
    [{ revisionName := some "app--abc123", latestRevision := false, weight := some 30 }]
    "app--abc123" false 30 (by decide) (by decide)

/-- Witness for claim C7 at one matching entry of weight 0 with a re-read
that still reports the revision active. -/
theorem deactivate_zero_traffic_proceeds_witness :
    (deactivateRevision
        [{ revisionName := some "app--abc123", latestRevision := false, weight := some 0 }]
        "app--abc123" true).1
      = [CpCall.deactivateRevision "app--abc123", CpCall.getRevision "app--abc123"] ∧
    ((deactivateRevision
        [{ revisionName := some "app--abc123", latestRevision := false, weight := some 0 }]
        "app--abc123" true).2
      = .error (.deactivationNotConfirmed "app--abc123") ↔ true = true) ∧
    (true = false →
      (deactivateRevision
        [{ revisionName := some "app--abc123", latestRevision := false, weight := some 0 }]
        "app--abc123" true).2 = .ok ()) :=
  deactivate_zero_traffic_proceeds
    [{ revisionName := some "app--abc123", latestRevision := false, weight := some 0 }]
    "app--abc123" true (by decide)

/-- Witness for claim C10 at one matching entry with an absent weight. -/
theorem deactivate_undefined_weight_refused_witness :
    deactivateRevision
        [{ revisionName := some "app--abc123", latestRevision := false, weight := none }]
        "app--abc123" false
      = ([], .error (.unsafeDeactivation "app--abc123")) :=
  deactivate_undefined_weight_refused
    [{ revisionName := some "app--abc123", latestRevision := false, weight := none }]
    "app--abc123" false
    ⟨{ revisionName := some "app--abc123", latestRevision := false, weight := none },
      by decide, rfl⟩
    (by
      intro t ht w hw
      have h1 : t = ({ revisionName := some "app--abc123", latestRevision := false, weight := none } : TrafficWeight) := by
        have h2 := (List.mem_filter.mp ht).1
        simpa using h2
      rw [h1] at hw
      simp at hw)

end Aca
